import Mathlib

/-!
Shallow embedding of
`src/services/appointment_scheduling_service/app/api/appointment-validation.js`.

Time instants (moment objects compared with `isBefore` / `isAfter` / `isSame`)
are modelled as integers, so the comparisons become `<`, `>`, `=`.

The promise-based control flow of `validate` is modelled by an explicit
`Outcome` type: the promise returned by `validate` either fulfills with a
`Verdict`, or never settles (`Outcome.pending`).  The latter is what the
source does when a repository fetch rejects: the `.catch` handler only logs
the error and calls neither `fulfill` nor `reject` (the inner fetch for the
appointee has no handler at all, which likewise leaves the outer promise
unsettled).
-/

namespace AppointmentValidation

/-- An appointment record, with the fields the validation code reads. -/
structure Appointment where
  initiator : String
  appointee : String
  startTime : Int
  endTime : Int
deriving DecidableEq, Repr

/-- `isSame` from appointment-validation.js: two appointments are the same
iff initiator, appointee and start time all agree. -/
def isSame (firstAppointment secondAppointment : Appointment) : Bool :=
  let sameInitiator := firstAppointment.initiator == secondAppointment.initiator
  let sameAppointee := firstAppointment.appointee == secondAppointment.appointee
  let sameTime := firstAppointment.startTime == secondAppointment.startTime
  sameAppointee && sameInitiator && sameTime

/-- `timesConflict` from appointment-validation.js: the four overlap tests,
joined by disjunction. -/
def timesConflict (firstAppointment secondAppointment : Appointment) : Bool :=
  let firstStartTime := firstAppointment.startTime
  let firstEndTime := firstAppointment.endTime
  let secondStartTime := secondAppointment.startTime
  let secondEndTime := secondAppointment.endTime
  let firstTest := decide (firstStartTime < secondEndTime) && decide (firstEndTime > secondEndTime)
  let secondTest := decide (firstStartTime < secondStartTime) && decide (firstEndTime > secondStartTime)
  let thirdTest := firstStartTime == secondStartTime
  let fourthTest := firstEndTime == secondEndTime
  firstTest || secondTest || thirdTest || fourthTest

/-- `noConflicts_Create` from appointment-validation.js: the loop with an
early `break` on the first conflicting entry becomes structural recursion. -/
def noConflicts_Create (appointment : Appointment) : List Appointment → Bool
  | [] => true
  | e :: rest =>
    if timesConflict e appointment then false
    else noConflicts_Create appointment rest

/-- The `{original, modified}` pair handed to the modification scanner. -/
structure AppointmentPair where
  original : Appointment
  modified : Appointment
deriving DecidableEq, Repr

/-- `noConflicts_Modify` from appointment-validation.js: entries matching the
original (per `isSame`) are skipped; any other entry conflicting with the
modified appointment makes the scan fail. -/
def noConflicts_Modify (appointments : AppointmentPair) : List Appointment → Bool
  | [] => true
  | e :: rest =>
    if isSame e appointments.original then noConflicts_Modify appointments rest
    else if timesConflict e appointments.modified then false
    else noConflicts_Modify appointments rest

/-- The object a successful repository fetch resolves with (the code reads
its `appointments` field). -/
structure AppointmentRecord where
  appointments : List Appointment
deriving DecidableEq, Repr

/-- Outcome of a `repo.GetAppointment(party)` call: the promise either
rejects with an error or resolves, possibly with `null` (`none`). -/
inductive FetchResult where
  | rejected (error : String)
  | resolved (value : Option AppointmentRecord)
deriving DecidableEq, Repr

/-- The `{success, reason}` object `validate` fulfills with. -/
structure Verdict where
  success : Bool
  reason : String
deriving DecidableEq, Repr

/-- Outcome of the promise returned by `validate`: it either fulfills with a
`Verdict` or never settles.  The source never rejects this promise: on a
repository rejection the `.catch` only logs, so the promise stays pending. -/
inductive Outcome where
  | fulfilled (verdict : Verdict)
  | pending
deriving DecidableEq, Repr

/-- Reason string on a conflict with the initiator's schedule. -/
def initiatorConflictReason : String :=
  "Appointment time conflicts with your existing appointment."

/-- Reason string on a conflict with the appointee's schedule. -/
def appointeeConflictReason : String :=
  "Appointment time conflicts with the appointee's existing appointment."

/-- The guard `result === null || noTimeConflicts(appointment, result.appointments)`
used by `validate` for each party. -/
def nullOrNoTimeConflicts {A : Type} (noTimeConflicts : A → List Appointment → Bool)
    (appointment : A) (result : Option AppointmentRecord) : Bool :=
  match result with
  | none => true
  | some record => noTimeConflicts appointment record.appointments

/-- `validate` from appointment-validation.js.  `repo` is the repository,
abstracted as the function `party ↦ outcome of repo.GetAppointment(party)`.
`A` is the type of the first argument handed to the scanner (a single
appointment for creation, an `{original, modified}` pair for modification).
A rejected fetch leaves the promise pending: the initiator fetch's rejection
is caught by a handler that only logs, and the appointee fetch's rejection
has no handler, so in both cases neither `fulfill` nor `reject` runs. -/
def validate {A : Type} (repo : String → FetchResult) (appointment : A)
    (initiator appointee : String)
    (noTimeConflicts : A → List Appointment → Bool) : Outcome :=
  match repo initiator with
  | FetchResult.rejected _ => Outcome.pending
  | FetchResult.resolved initiatorResult =>
    if nullOrNoTimeConflicts noTimeConflicts appointment initiatorResult then
      match repo appointee with
      | FetchResult.rejected _ => Outcome.pending
      | FetchResult.resolved appointeeResult =>
        if nullOrNoTimeConflicts noTimeConflicts appointment appointeeResult then
          Outcome.fulfilled ⟨true, ""⟩
        else
          Outcome.fulfilled ⟨false, appointeeConflictReason⟩
    else
      Outcome.fulfilled ⟨false, initiatorConflictReason⟩

/-- `validate_modification` from appointment-validation.js: `validate` with
the modification scanner.  The wrapper promise fulfills with exactly the
result `validate` fulfills with, and stays pending when `validate` does. -/
def validate_modification (repo : String → FetchResult)
    (appointments : AppointmentPair) (initiator appointee : String) : Outcome :=
  validate repo appointments initiator appointee noConflicts_Modify

/-- `validate_creation` from appointment-validation.js: `validate` with the
creation scanner. -/
def validate_creation (repo : String → FetchResult)
    (appointment : Appointment) (initiator appointee : String) : Outcome :=
  validate repo appointment initiator appointee noConflicts_Create

/-! ## Helper lemmas -/

/-- Characterization of `timesConflict` as a proposition: the four tests of
the source, read over integer instants. -/
theorem timesConflict_eq_true_iff (a b : Appointment) :
    timesConflict a b = true ↔
      ((a.startTime < b.endTime ∧ b.endTime < a.endTime) ∨
       (a.startTime < b.startTime ∧ b.startTime < a.endTime) ∨
       a.startTime = b.startTime ∨ a.endTime = b.endTime) := by
  simp only [timesConflict, Bool.or_eq_true, Bool.and_eq_true, decide_eq_true_eq,
    beq_iff_eq, gt_iff_lt]
  omega

/-- Two booleans agreeing on `= true` are equal. -/
theorem bool_eq_of_eq_true_iff {a b : Bool} (h : (a = true) ↔ (b = true)) : a = b := by
  cases a <;> cases b <;> simp_all

/-! ## Claims about `timesConflict` -/

/-- C1: for well-formed spans `a` (existing) and `b` (candidate),
`timesConflict a b` is true iff at least one of the four conditions holds
(`a.start < b.end < a.end`, `a.start < b.start < a.end`, `a.start = b.start`,
`a.end = b.end`); it is false when the spans are disjoint, and false when they
are merely adjacent (`a.end = b.start` with no other equality). -/
theorem timesConflict_overlap_conditions (a b : Appointment)
    (ha : a.startTime < a.endTime) (hb : b.startTime < b.endTime) :
    (timesConflict a b = true ↔
      ((a.startTime < b.endTime ∧ b.endTime < a.endTime) ∨
       (a.startTime < b.startTime ∧ b.startTime < a.endTime) ∨
       a.startTime = b.startTime ∨ a.endTime = b.endTime)) ∧
    (b.endTime < a.startTime ∨ a.endTime < b.startTime → timesConflict a b = false) ∧
    (a.endTime = b.startTime ∧ a.startTime ≠ b.startTime ∧ a.endTime ≠ b.endTime →
      timesConflict a b = false) := by
  refine ⟨timesConflict_eq_true_iff a b, ?_, ?_⟩
  · intro hdisj
    cases h : timesConflict a b with
    | false => rfl
    | true =>
      have hc := (timesConflict_eq_true_iff a b).1 h
      omega
  · intro hadj
    cases h : timesConflict a b with
    | false => rfl
    | true =>
      have hc := (timesConflict_eq_true_iff a b).1 h
      omega

/-- C1 witness: back-to-back appointments `[0,2)` and `[2,4)` are merely
adjacent and do not conflict. -/
theorem timesConflict_overlap_conditions_witness :
    timesConflict ⟨"doctor", "patient", 0, 2⟩ ⟨"doctor", "patient", 2, 4⟩ = false :=
  (timesConflict_overlap_conditions ⟨"doctor", "patient", 0, 2⟩ ⟨"doctor", "patient", 2, 4⟩
    (by decide) (by decide)).2.2 (by exact ⟨rfl, by decide, by decide⟩)

/-- C2 counterexample: `timesConflict` is not symmetric.  With the
well-formed spans `[0,10)` and `[2,5)` (the second strictly inside the
first), conflict is reported in one order but not in the other. -/
theorem timesConflict_not_symmetric :
    (0 : Int) < 10 ∧ (2 : Int) < 5 ∧
    timesConflict ⟨"doctor", "patient", 0, 10⟩ ⟨"doctor", "patient", 2, 5⟩ = true ∧
    timesConflict ⟨"doctor", "patient", 2, 5⟩ ⟨"doctor", "patient", 0, 10⟩ = false := by
  refine ⟨by decide, by decide, by decide, by decide⟩

/-- C2 (amended): for well-formed spans, `timesConflict a b = timesConflict b a`
holds whenever neither span strictly contains the other; symmetry fails
exactly in the strict-containment cases. -/
theorem timesConflict_symm_of_no_strict_containment (a b : Appointment)
    (ha : a.startTime < a.endTime) (hb : b.startTime < b.endTime)
    (hab : ¬ (a.startTime < b.startTime ∧ b.endTime < a.endTime))
    (hba : ¬ (b.startTime < a.startTime ∧ a.endTime < b.endTime)) :
    timesConflict a b = timesConflict b a := by
  apply bool_eq_of_eq_true_iff
  rw [timesConflict_eq_true_iff, timesConflict_eq_true_iff]
  omega

/-- C2 witness: two partially overlapping spans conflict symmetrically. -/
theorem timesConflict_symm_witness :
    timesConflict ⟨"doctor", "patient", 0, 5⟩ ⟨"doctor", "patient", 3, 8⟩ =
      timesConflict ⟨"doctor", "patient", 3, 8⟩ ⟨"doctor", "patient", 0, 5⟩ :=
  timesConflict_symm_of_no_strict_containment ⟨"doctor", "patient", 0, 5⟩
    ⟨"doctor", "patient", 3, 8⟩ (by decide) (by decide) (by decide) (by decide)

/-- C6: when the second span strictly contains the first (with distinct start
instants and distinct end instants), `timesConflict first second` is false,
so `noConflicts_Create` accepts a candidate that strictly contains an
existing appointment of the scanned party. -/
theorem timesConflict_strict_containment (first second : Appointment)
    (h1 : first.startTime < first.endTime) (h2 : second.startTime < second.endTime)
    (hs : second.startTime < first.startTime) (he : first.endTime < second.endTime)
    (hsne : first.startTime ≠ second.startTime) (hene : first.endTime ≠ second.endTime) :
    timesConflict first second = false ∧
      noConflicts_Create second [first] = true := by
  have hfalse : timesConflict first second = false := by
    cases h : timesConflict first second with
    | false => rfl
    | true =>
      have hc := (timesConflict_eq_true_iff first second).1 h
      omega
  refine ⟨hfalse, ?_⟩
  simp [noConflicts_Create, hfalse]

/-- C6 witness: the candidate `[0,10)` strictly contains the existing
appointment `[2,5)` and is accepted by the creation scanner. -/
theorem timesConflict_strict_containment_witness :
    timesConflict ⟨"doctor", "patient", 2, 5⟩ ⟨"doctor", "patient", 0, 10⟩ = false ∧
      noConflicts_Create ⟨"doctor", "patient", 0, 10⟩ [⟨"doctor", "patient", 2, 5⟩] = true :=
  timesConflict_strict_containment ⟨"doctor", "patient", 2, 5⟩ ⟨"doctor", "patient", 0, 10⟩
    (by decide) (by decide) (by decide) (by decide) (by decide) (by decide)

/-! ## Claims about the scanners and the identity predicate -/

/-- The creation scanner succeeds iff no existing entry conflicts with the
candidate. -/
theorem noConflicts_Create_eq_true_iff (candidate : Appointment)
    (l : List Appointment) :
    noConflicts_Create candidate l = true ↔
      ∀ e ∈ l, timesConflict e candidate = false := by
  induction l with
  | nil => simp [noConflicts_Create]
  | cons e rest ih =>
    cases h : timesConflict e candidate with
    | true => simp [noConflicts_Create, h]
    | false => simp [noConflicts_Create, h, ih]

/-- C7: `noConflicts_Create candidate existing` is true iff no entry of
`existing` conflicts with the candidate; it is true on the empty list, and
its value is invariant under permutations of the existing list. -/
theorem noConflicts_Create_spec (candidate : Appointment) :
    (∀ l, noConflicts_Create candidate l = true ↔
      ∀ e ∈ l, timesConflict e candidate = false) ∧
    noConflicts_Create candidate [] = true ∧
    (∀ l₁ l₂, l₁.Perm l₂ →
      noConflicts_Create candidate l₁ = noConflicts_Create candidate l₂) := by
  refine ⟨noConflicts_Create_eq_true_iff candidate, rfl, ?_⟩
  intro l₁ l₂ hperm
  apply bool_eq_of_eq_true_iff
  rw [noConflicts_Create_eq_true_iff, noConflicts_Create_eq_true_iff]
  constructor
  · intro h e he
    exact h e (hperm.mem_iff.2 he)
  · intro h e he
    exact h e (hperm.mem_iff.1 he)

/-- C5: the modification scanner succeeds iff no entry that fails the
identity match with the original conflicts with the modified appointment;
every identity-match (zero, one or several) is skipped, so the original is
excluded from conflict consideration even when it overlaps the modified
span. -/
theorem noConflicts_Modify_spec (appointments : AppointmentPair)
    (appointmentList : List Appointment) :
    noConflicts_Modify appointments appointmentList = true ↔
      ∀ e ∈ appointmentList, isSame e appointments.original = false →
        timesConflict e appointments.modified = false := by
  induction appointmentList with
  | nil => simp [noConflicts_Modify]
  | cons e rest ih =>
    cases hs : isSame e appointments.original with
    | true => simp [noConflicts_Modify, hs, ih]
    | false =>
      cases ht : timesConflict e appointments.modified with
      | true => simp [noConflicts_Modify, hs, ht]
      | false => simp [noConflicts_Modify, hs, ht, ih]

/-- C8: `isSame x y` is true iff initiator, appointee and start instant all
agree exactly; the end time is irrelevant; the predicate is reflexive and
symmetric. -/
theorem isSame_spec (x y : Appointment) :
    (isSame x y = true ↔
      x.initiator = y.initiator ∧ x.appointee = y.appointee ∧
        x.startTime = y.startTime) ∧
    (∀ t : Int, isSame x { y with endTime := t } = isSame x y) ∧
    isSame x x = true ∧
    isSame x y = isSame y x := by
  refine ⟨?_, fun t => rfl, ?_, ?_⟩
  · simp only [isSame, Bool.and_eq_true, beq_iff_eq]
    constructor
    · rintro ⟨⟨h1, h2⟩, h3⟩
      exact ⟨h2, h1, h3⟩
    · rintro ⟨h1, h2, h3⟩
      exact ⟨⟨h2, h1⟩, h3⟩
  · simp [isSame]
  · apply bool_eq_of_eq_true_iff
    simp only [isSame, Bool.and_eq_true, beq_iff_eq]
    constructor
    · rintro ⟨⟨h1, h2⟩, h3⟩
      exact ⟨⟨h1.symm, h2.symm⟩, h3.symm⟩
    · rintro ⟨⟨h1, h2⟩, h3⟩
      exact ⟨⟨h1.symm, h2.symm⟩, h3.symm⟩

/-! ## Claims about the orchestrator `validate` -/

/-- A repository whose fetches always reject with a storage error. -/
def rejectingRepo : String → FetchResult :=
  fun _ => FetchResult.rejected "storage error"

/-- A repository that resolves the initiator fetch with `null` but rejects
the appointee fetch. -/
def appointeeRejectingRepo : String → FetchResult :=
  fun party =>
    if party == "alice" then FetchResult.resolved none
    else FetchResult.rejected "storage error"

/-- A repository that resolves every fetch with `null`. -/
def nullRepo : String → FetchResult :=
  fun _ => FetchResult.resolved none

/-- A concrete appointment used in the failure scenarios. -/
def sampleAppointment : Appointment := ⟨"alice", "bob", 0, 60⟩

/-- C3 (divergence evidence): when a repository fetch rejects — for the
initiator or for the appointee — the promise returned by the validation
entry points never settles: the error is logged and swallowed, so the caller
receives neither a `Verdict` nor an error.  No error is propagated, contrary
to the stated failure semantics (though the failure is indeed never reported
as success). -/
theorem validate_fetch_failure_pending :
    validate_creation rejectingRepo sampleAppointment "alice" "bob" = Outcome.pending ∧
    validate_modification rejectingRepo ⟨sampleAppointment, sampleAppointment⟩
        "alice" "bob" = Outcome.pending ∧
    validate_creation appointeeRejectingRepo sampleAppointment "alice" "bob" =
      Outcome.pending :=
  ⟨rfl, rfl, rfl⟩

/-- C4: if the initiator fetch resolves with a record whose appointment list
the scanner rejects, `validate` fulfills with the initiator-conflict verdict
for every repository behaviour at the appointee — the appointee fetch is
never consulted, so even when both lists would independently conflict the
reason is the initiator one. -/
theorem validate_initiator_conflict_precedence {A : Type}
    (repo : String → FetchResult) (appointment : A)
    (initiator appointee : String)
    (noTimeConflicts : A → List Appointment → Bool) (record : AppointmentRecord)
    (hfetch : repo initiator = FetchResult.resolved (some record))
    (hconflict : noTimeConflicts appointment record.appointments = false) :
    validate repo appointment initiator appointee noTimeConflicts =
      Outcome.fulfilled ⟨false, initiatorConflictReason⟩ := by
  unfold validate
  rw [hfetch]
  simp [nullOrNoTimeConflicts, hconflict]

/-- A single-entry appointment list that conflicts with the candidate below. -/
def conflictList : List Appointment := [⟨"alice", "bob", 0, 60⟩]

/-- A repository giving every party the conflicting list, so both parties
would independently conflict. -/
def bothConflictRepo : String → FetchResult :=
  fun _ => FetchResult.resolved (some ⟨conflictList⟩)

/-- C4 witness: both parties hold a conflicting appointment, and the verdict
carries the initiator-conflict reason. -/
theorem validate_initiator_conflict_precedence_witness :
    validate bothConflictRepo (⟨"alice", "carol", 0, 60⟩ : Appointment)
        "alice" "carol" noConflicts_Create =
      Outcome.fulfilled ⟨false, initiatorConflictReason⟩ :=
  validate_initiator_conflict_precedence bothConflictRepo
    (⟨"alice", "carol", 0, 60⟩ : Appointment) "alice" "carol" noConflicts_Create
    ⟨conflictList⟩ rfl (by decide)

/-- C9: a `null` fetch result for a party is treated as an empty appointment
list for that party (no conflict possible for that party), whichever party it
is and whatever the repository does for the other party — replacing that
party's `null` by a record with an empty list leaves the outcome unchanged
(for a scanner accepting the empty list, as both source scanners do) — and in
particular when both parties resolve to `null` the verdict is
`{success: true, reason: ""}`. -/
theorem validate_null_results {A : Type} (repo : String → FetchResult)
    (appointment : A) (initiator appointee : String)
    (noTimeConflicts : A → List Appointment → Bool)
    (hempty : noTimeConflicts appointment [] = true) :
    (repo initiator = FetchResult.resolved none →
      validate repo appointment initiator appointee noTimeConflicts =
        validate
          (fun party =>
            if party == initiator then FetchResult.resolved (some ⟨[]⟩)
            else repo party)
          appointment initiator appointee noTimeConflicts) ∧
    (repo appointee = FetchResult.resolved none →
      validate repo appointment initiator appointee noTimeConflicts =
        validate
          (fun party =>
            if party == appointee then FetchResult.resolved (some ⟨[]⟩)
            else repo party)
          appointment initiator appointee noTimeConflicts) ∧
    (repo initiator = FetchResult.resolved none →
      repo appointee = FetchResult.resolved none →
      validate repo appointment initiator appointee noTimeConflicts =
        Outcome.fulfilled ⟨true, ""⟩) := by
  refine ⟨?_, ?_, ?_⟩
  · intro hi
    cases hpi : (appointee == initiator : Bool) with
    | true =>
      have heq : appointee = initiator := eq_of_beq hpi
      subst heq
      simp [validate, hi, nullOrNoTimeConflicts, hempty]
    | false =>
      simp [validate, hi, nullOrNoTimeConflicts, hempty, hpi]
  · intro hp
    cases hpi : (initiator == appointee : Bool) with
    | true =>
      have heq : initiator = appointee := eq_of_beq hpi
      subst heq
      simp [validate, hp, nullOrNoTimeConflicts, hempty]
    | false =>
      cases hri : repo initiator with
      | rejected e => simp [validate, hri, hpi]
      | resolved r =>
        simp [validate, hri, hpi, hp, nullOrNoTimeConflicts, hempty]
  · intro hi hp
    simp [validate, hi, hp, nullOrNoTimeConflicts]

/-- C9 witness: every fetch resolves `null`, and creation validation
succeeds with an empty reason. -/
theorem validate_null_results_witness :
    validate nullRepo sampleAppointment "alice" "bob" noConflicts_Create =
      Outcome.fulfilled ⟨true, ""⟩ :=
  (validate_null_results nullRepo sampleAppointment "alice" "bob"
    noConflicts_Create rfl).2.2 rfl rfl

/-- C10: every `Verdict` that `validate` fulfills with (hence every verdict
of `validate_creation` and `validate_modification`) has an empty reason iff
it is successful, and on failure the reason is exactly one of the two
party-naming strings. -/
theorem validate_verdict_invariant {A : Type} (repo : String → FetchResult)
    (appointment : A) (initiator appointee : String)
    (noTimeConflicts : A → List Appointment → Bool) (v : Verdict)
    (h : validate repo appointment initiator appointee noTimeConflicts =
      Outcome.fulfilled v) :
    (v.reason = "" ↔ v.success = true) ∧
    (v.success = false →
      v.reason = initiatorConflictReason ∨ v.reason = appointeeConflictReason) := by
  unfold validate at h
  split at h
  · exact Outcome.noConfusion h
  · split at h
    · split at h
      · exact Outcome.noConfusion h
      · split at h
        · injection h with hv
          subst hv
          decide
        · injection h with hv
          subst hv
          decide
    · injection h with hv
      subst hv
      decide

/-- C10 witness: the success verdict produced on a conflict-free validation
satisfies the invariant. -/
theorem validate_verdict_invariant_witness :
    ((Verdict.mk true "").reason = "" ↔ (Verdict.mk true "").success = true) ∧
    ((Verdict.mk true "").success = false →
      (Verdict.mk true "").reason = initiatorConflictReason ∨
        (Verdict.mk true "").reason = appointeeConflictReason) :=
  validate_verdict_invariant nullRepo sampleAppointment "alice" "bob"
    noConflicts_Create ⟨true, ""⟩ rfl

end AppointmentValidation
